import Mathlib

/-!
Shallow embedding of the rig_veda_backend retrieval pipeline.

The definitions below are translated from the repository's Python sources:
  * `src/chat_bot/llm_handler.py` — intent dispatch, coordinate validation,
    coordinate lookup, semantic retrieval, context assembly, envelopes;
  * `src/sloka_explorer/routes.py` — `get_sloka` (keyed read with 404 aborts);
  * `src/semantic_search/routes.py` — `SearchResources` lifecycle and the
    route-level `semantic_search` with its `exp(-distance)` similarity.

External collaborators (the generation service, the FAISS index, the data
files on disk) are modelled as components of an explicit environment record;
wall-clock time is outside the embedding, so log entries record the arguments
passed to the logger except the elapsed-milliseconds number.
Python exceptions (`KeyError`, Flask `abort`, `IndexError`, the exception
raised by a failed resource load) are modelled with `Except`.
-/

set_option maxHeartbeats 1000000

namespace RigVeda

/-- Python exceptions that can escape the pipeline functions. -/
inductive PyError where
  | keyError (key : String)
  | httpAbort (code : Nat) (description : String)
  | indexError
  | raised (msg : String)
deriving DecidableEq, Repr

/-- One entry of `data/rig_veda_index.json` → `mandalas[_].hymns[_]`:
hymn number with its `total_slokas` count. -/
structure HymnIndex where
  hymn_number : Int
  total_slokas : Int
deriving DecidableEq, Repr

/-- One entry of `data/rig_veda_index.json` → `mandalas[_]`. -/
structure MandalaIndex where
  mandala_number : Int
  hymns : List HymnIndex
deriving DecidableEq, Repr

/-- The bounds table `data/rig_veda_index.json`. -/
structure VedaIndex where
  mandalas : List MandalaIndex
deriving DecidableEq, Repr

/-- A stanza record inside a `mandala_N.json` dataset file, with the fields
that `sloka_search` reads from the jsonified response. -/
structure Stanza where
  stanza_number : Int
  location : String
  sanskrit : String
  translation : String
deriving DecidableEq, Repr

/-- A hymn inside a `mandala_N.json` dataset file. -/
structure HymnData where
  hymn_number : Int
  stanzas : List Stanza
deriving DecidableEq, Repr

/-- A `mandala_N.json` dataset file. -/
structure MandalaData where
  hymns : List HymnData
deriving DecidableEq, Repr

/-- One element of `slokas_mapping.json`, positionally aligned with the
FAISS index (`resources.slokas_list`). -/
structure SlokaMapEntry where
  mandala : Int
  hymn_number : Int
  sloka_number : Int
  text : String
deriving DecidableEq, Repr

/-- An evidence item as built by `sloka_search`
(`{"location": ..., "sanskrit": ..., "meaning": ...}`). -/
structure Evidence where
  location : String
  sanskrit : String
  meaning : String
deriving DecidableEq, Repr

/-- An intent object produced by `extract_intents_gemini`.  The `intent` key
may be absent (Python would raise `KeyError` on `intent_obj["intent"]`),
hence `Option String`; the remaining keys are read with `.get` on the paths
the claims exercise with concrete values, so they are kept as plain fields. -/
structure IntentObj where
  intent : Option String
  mandala : Int
  hymn : Int
  sloka : Int
  keywords : String
  question : String
deriving DecidableEq, Repr

/-- Arguments recorded by `logger.log_chat_bot_interaction` (query, context,
intent list, success flag); the wall-clock `processing_time` argument is not
representable in the embedding and is omitted from the record. -/
structure LogEntry where
  query : String
  context : String
  intents : List IntentObj
  success : Bool
deriving DecidableEq, Repr

/-- The distinct dictionary shapes returned by `get_answer`. -/
inductive Envelope where
  | intentError (error : String)
  | unrelated
  | fetchError (error : String)
  | genError (error : String)
  | success (intents : List IntentObj) (slokas : List Evidence) (answer : String)
deriving DecidableEq, Repr

/-- The `Message` field of each envelope shape, with the literal strings of
`llm_handler.get_answer`. -/
def Envelope.message : Envelope → String
  | .intentError _ => "Error in intent extraction"
  | .unrelated => "Sorry, I can only answer questions related to the Rig Veda."
  | .fetchError _ => "Error fetching sloka"
  | .genError _ => "Error in generating answer"
  | .success _ _ _ => "Success"

/-- The `error` field of each envelope shape (absent on success). -/
def Envelope.errorField : Envelope → Option String
  | .intentError e => some e
  | .unrelated => some "unrelated question"
  | .fetchError e => some e
  | .genError e => some e
  | .success _ _ _ => none

/-- The dictionary keys of each envelope shape as returned by
`get_answer` in `llm_handler.py`. -/
def Envelope.keys : Envelope → List String
  | .intentError _ => ["Message", "error"]
  | .unrelated => ["Message", "error"]
  | .fetchError _ => ["Message", "error"]
  | .genError _ => ["Message", "error"]
  | .success _ _ _ => ["Message", "intents", "slokas", "answer"]

/-- Environment of the pipeline: the external collaborators and on-disk data
that `get_answer` consumes.  `classify` models `extract_intents_gemini`
(error dictionary vs. parsed intent list), `dataset` models the
`mandala_N.json` files keyed by number, `ann` models
`resources.index.search` returning neighbor positions for a query at a given
`k`, `mapping` models `resources.slokas_list`, and `generate` models
`generate_llm_answer` (error dictionary vs. answer). -/
structure Env where
  classify : String → Except String (List IntentObj)
  index : VedaIndex
  dataset : Int → Option MandalaData
  ann : String → Nat → List Nat
  mapping : List SlokaMapEntry
  generate : String → String → Except String String

/-- Embedding of `is_valid_number` (`llm_handler.py`): find the mandala in
the bounds table, then the hymn, then range-check the sloka number against
`total_slokas`. -/
def is_valid_number (index : VedaIndex) (mandala hymn sloka : Int) : Bool :=
  match index.mandalas.find? (fun m => m.mandala_number == mandala) with
  | none => false
  | some mandala_data =>
    match mandala_data.hymns.find? (fun h => h.hymn_number == hymn) with
    | none => false
    | some hymn_data => decide (1 ≤ sloka ∧ sloka ≤ hymn_data.total_slokas)

/-- Embedding of `get_sloka` (`sloka_explorer/routes.py`): load the mandala
file, find the hymn, find the stanza; each missing step is a Flask
`abort(404, ...)`, modelled as an exception. -/
def get_sloka (dataset : Int → Option MandalaData) (mandala_num hymn_num stanza_num : Int) :
    Except PyError Stanza :=
  match dataset mandala_num with
  | none => .error (.httpAbort 404 "Mandala data not found")
  | some mandala_data =>
    match mandala_data.hymns.find? (fun h => h.hymn_number == hymn_num) with
    | none => .error (.httpAbort 404 "Hymn not found")
    | some hymn =>
      match hymn.stanzas.find? (fun s => s.stanza_number == stanza_num) with
      | none => .error (.httpAbort 404 "Stanza not found")
      | some stanza => .ok stanza

/-- The error string `sloka_search` builds for an invalid coordinate
(`f"Invalid mandala, hymn, or sloka number: {mandala}, {hymn}, {sloka}"`). -/
def slokaErrMsg (mandala hymn sloka : Int) : String :=
  "Invalid mandala, hymn, or sloka number: " ++ toString mandala ++ ", "
    ++ toString hymn ++ ", " ++ toString sloka

/-- The two normal returns of `sloka_search`: the `{"error": ...}`
dictionary, or a list of evidence items. -/
inductive SlokaSearchResult where
  | err (msg : String)
  | items (evidence : List Evidence)
deriving DecidableEq, Repr

/-- Embedding of `sloka_search` (`llm_handler.py`): validate the triple
against the bounds table (invalid → error dictionary, returned normally),
otherwise read the record through `get_sloka` (whose `abort` propagates) and
wrap its `location` / `sanskrit` / `translation` fields as one evidence
item. -/
def sloka_search (index : VedaIndex) (dataset : Int → Option MandalaData)
    (mandala hymn sloka : Int) : Except PyError SlokaSearchResult :=
  if ¬ is_valid_number index mandala hymn sloka then
    .ok (.err (slokaErrMsg mandala hymn sloka))
  else
    match get_sloka dataset mandala hymn sloka with
    | .error e => .error e
    | .ok stanza => .ok (.items [⟨stanza.location, stanza.sanskrit, stanza.translation⟩])

/-- Position lookups `resources.slokas_list[idx]` performed by
`get_top_slokas` for each FAISS neighbor; an out-of-range position raises
(Python `IndexError`). -/
def lookupPositions (mapping : List SlokaMapEntry) : List Nat → Except PyError (List SlokaMapEntry)
  | [] => .ok []
  | p :: ps =>
    match mapping.get? p with
    | none => .error .indexError
    | some entry =>
      match lookupPositions mapping ps with
      | .error e => .error e
      | .ok rest => .ok (entry :: rest)

/-- Loop body of `semantic_search_slokas` over the retrieved neighbors: a
neighbor whose `sloka_search` yields the error dictionary is skipped
(`continue`), a successful lookup extends the accumulator, and an exception
from the lookup propagates. -/
def semLoopNeighbors (index : VedaIndex) (dataset : Int → Option MandalaData) :
    List SlokaMapEntry → Except PyError (List Evidence)
  | [] => .ok []
  | s :: rest =>
    match sloka_search index dataset s.mandala s.hymn_number s.sloka_number with
    | .error e => .error e
    | .ok (.err _) => semLoopNeighbors index dataset rest
    | .ok (.items items) =>
      match semLoopNeighbors index dataset rest with
      | .error e => .error e
      | .ok more => .ok (items ++ more)

/-- Embedding of `semantic_search_slokas` (`llm_handler.py`): retrieve the
top-`2` neighbors (`get_top_slokas(query, k=2)`) from the ANN index, map
each position through the parallel mapping, then resolve each neighbor,
skipping the ones the bounds validation rejects. -/
def semantic_search_slokas (env : Env) (search_string : String) : Except PyError (List Evidence) :=
  match lookupPositions env.mapping (env.ann search_string 2) with
  | .error e => .error e
  | .ok top_slokas => semLoopNeighbors env.index env.dataset top_slokas

/-- Rendering of one intent object inside `str(intents_list)`; the exact
character layout of Python's `str` is irrelevant to every claim, only that a
fixed serialization is embedded in the context. -/
def intentObjRepr (i : IntentObj) : String :=
  "intent: " ++ (match i.intent with | none => "<missing>" | some t => t)
    ++ ", mandala: " ++ toString i.mandala ++ ", hymn: " ++ toString i.hymn
    ++ ", sloka: " ++ toString i.sloka ++ ", keywords: " ++ i.keywords
    ++ ", question: " ++ i.question

/-- Rendering of `str(intents_list)`. -/
def intentsRepr (l : List IntentObj) : String :=
  "[" ++ String.intercalate ", " (l.map intentObjRepr) ++ "]"

/-- Step 2 of `get_answer`: the scan `for intent_obj in intents_list: if
intent_obj["intent"] == "other_question"`.  A missing `intent` key raises
`KeyError`; finding the tag returns early with `true`. -/
def scanOther : List IntentObj → Except PyError Bool
  | [] => .ok false
  | i :: rest =>
    match i.intent with
    | none => .error (.keyError "intent")
    | some t => if t = "other_question" then .ok true else scanOther rest

/-- Step 3 of `get_answer`: the `fetch_by_location` loop.  The inner
`Except String` is the early `return {"Message": "Error fetching sloka",
"error": ...}` taken when `sloka_search` yields its error dictionary;
successful lookups are concatenated in intent-list order. -/
def fetchLoop (index : VedaIndex) (dataset : Int → Option MandalaData) :
    List IntentObj → Except PyError (Except String (List Evidence))
  | [] => .ok (.ok [])
  | i :: rest =>
    match i.intent with
    | none => .error (.keyError "intent")
    | some t =>
      if t = "fetch_by_location" then
        match sloka_search index dataset i.mandala i.hymn i.sloka with
        | .error e => .error e
        | .ok (.err msg) => .ok (.error msg)
        | .ok (.items items) =>
          match fetchLoop index dataset rest with
          | .error e => .error e
          | .ok (.error msg) => .ok (.error msg)
          | .ok (.ok more) => .ok (.ok (items ++ more))
      else fetchLoop index dataset rest

/-- Step 4 of `get_answer`: the `semantic_search` loop, concatenating the
results of `semantic_search_slokas` in intent-list order. -/
def semIntentLoop (env : Env) : List IntentObj → Except PyError (List Evidence)
  | [] => .ok []
  | i :: rest =>
    match i.intent with
    | none => .error (.keyError "intent")
    | some t =>
      if t = "semantic_search" then
        match semantic_search_slokas env i.keywords with
        | .error e => .error e
        | .ok items =>
          match semIntentLoop env rest with
          | .error e => .error e
          | .ok more => .ok (items ++ more)
      else semIntentLoop env rest

/-- The comprehension `[i.get("question") for i in intents_list if
i["intent"] == "asking_question"]`. -/
def questionsOf : List IntentObj → Except PyError (List String)
  | [] => .ok []
  | i :: rest =>
    match i.intent with
    | none => .error (.keyError "intent")
    | some t =>
      match questionsOf rest with
      | .error e => .error e
      | .ok qs => .ok (if t = "asking_question" then i.question :: qs else qs)

/-- Step 5 of `get_answer`: the context string — the serialized intent list,
one `sanskrit - meaning` line per evidence item, and, only when at least one
asking-question intent exists, the trailing user-question block. -/
def assembleContext (intents_list : List IntentObj) (slokas : List Evidence)
    (questions : List String) : String :=
  let base := "Intent Information: " ++ intentsRepr intents_list ++ " \n"
    ++ String.intercalate "\n" (slokas.map (fun s => s.sanskrit ++ " - " ++ s.meaning))
  if questions.isEmpty then base
  else base ++ "\n\nUser question: " ++ String.intercalate " " questions

/-- Embedding of `get_answer` (`llm_handler.py`): classification, the
`other_question` scan, the coordinate-fetch loop, the semantic-search loop,
question extraction, context assembly, and generation, returning the
envelope together with the list of `log_chat_bot_interaction` invocations
made on that path.  On the coordinate-fetch error path the source returns
without invoking the logger (it computes `processing_time` and prints, but
there is no `logger.` call), so that path carries an empty log list. -/
def get_answer (env : Env) (user_query : String) :
    Except PyError (Envelope × List LogEntry) :=
  match env.classify user_query with
  | .error e => .ok (.intentError e, [⟨user_query, "", [], false⟩])
  | .ok intents_list =>
    match scanOther intents_list with
    | .error e => .error e
    | .ok true =>
      .ok (.unrelated, [⟨user_query, "Intent: " ++ intentsRepr intents_list, intents_list, false⟩])
    | .ok false =>
      match fetchLoop env.index env.dataset intents_list with
      | .error e => .error e
      | .ok (.error msg) => .ok (.fetchError msg, [])
      | .ok (.ok fetchEvidence) =>
        match semIntentLoop env intents_list with
        | .error e => .error e
        | .ok semEvidence =>
          let slokas := fetchEvidence ++ semEvidence
          match questionsOf intents_list with
          | .error e => .error e
          | .ok questions =>
            let ctx := assembleContext intents_list slokas questions
            match env.generate ctx user_query with
            | .error e => .ok (.genError e, [⟨user_query, ctx, intents_list, false⟩])
            | .ok ans =>
              .ok (.success intents_list slokas ans, [⟨user_query, ctx, intents_list, true⟩])

/-- Reference extraction: the evidence items a single coordinate lookup
contributes (empty when validation rejects the triple or the lookup
raises). -/
def evidenceOfTriple (index : VedaIndex) (dataset : Int → Option MandalaData)
    (mandala hymn sloka : Int) : List Evidence :=
  match sloka_search index dataset mandala hymn sloka with
  | .ok (.items items) => items
  | _ => []

/-- Reference extraction: the evidence a single neighbor of the ANN mapping
contributes (empty when skipped). -/
def neighborItems (index : VedaIndex) (dataset : Int → Option MandalaData)
    (s : SlokaMapEntry) : List Evidence :=
  evidenceOfTriple index dataset s.mandala s.hymn_number s.sloka_number

/-- Reference extraction: all evidence contributed by the
`fetch_by_location` intents of a list, in intent-list order. -/
def fetchEvidenceOf (index : VedaIndex) (dataset : Int → Option MandalaData)
    (l : List IntentObj) : List Evidence :=
  l.flatMap (fun i =>
    if i.intent = some "fetch_by_location" then
      evidenceOfTriple index dataset i.mandala i.hymn i.sloka
    else [])

/-- Reference extraction: the evidence a single semantic-search intent
contributes (empty when the retrieval raises). -/
def evidenceOfSemIntent (env : Env) (i : IntentObj) : List Evidence :=
  match semantic_search_slokas env i.keywords with
  | .ok items => items
  | .error _ => []

/-- Reference extraction: all evidence contributed by the `semantic_search`
intents of a list, in intent-list order. -/
def semEvidenceOf (env : Env) (l : List IntentObj) : List Evidence :=
  l.flatMap (fun i =>
    if i.intent = some "semantic_search" then evidenceOfSemIntent env i else [])

/-- Reference extraction: the question texts of the `asking_question`
intents of a list, in order. -/
def pureQuestions (l : List IntentObj) : List String :=
  l.flatMap (fun i => if i.intent = some "asking_question" then [i.question] else [])

/-- The four intent tags `get_answer` dispatches on. -/
def knownTags : List String :=
  ["other_question", "fetch_by_location", "semantic_search", "asking_question"]

/-- The three coordinate components, in spec terms
(collection = mandala, group = hymn, item = sloka). -/
inductive CoordField where
  | collection
  | group
  | item
deriving DecidableEq, Repr

/-- Modelled from the spec: the "exact offending field" of an out-of-bounds
coordinate — the first failing bounds check (collection exists → group
exists within it → item within the group's count).  The source has no such
notion; this definition exists only to compare the spec's claimed error
contract against `sloka_search`'s actual uniform error. -/
def offendingField (index : VedaIndex) (mandala hymn sloka : Int) : Option CoordField :=
  match index.mandalas.find? (fun m => m.mandala_number == mandala) with
  | none => some .collection
  | some mandala_data =>
    match mandala_data.hymns.find? (fun h => h.hymn_number == hymn) with
    | none => some .group
    | some hymn_data =>
      if ¬ (1 ≤ sloka ∧ sloka ≤ hymn_data.total_slokas) then some .item else none

/-! ### SearchResources lifecycle (`semantic_search/routes.py`) -/

/-- The on-disk conditions `_load_components` observes: whether the FAISS
index file and the mapping file exist, and the sizes of the loaded index and
mapping (which `_load_components` never compares). -/
structure SREnv where
  indexFileExists : Bool
  mappingFileExists : Bool
  indexSize : Nat
  mappingLen : Nat
deriving DecidableEq, Repr

/-- The singleton's observable state: the `_initialized` flag and an
attempted-load counter (the spec's load-count instrumentation). -/
structure SRState where
  initialized : Bool
  loadCount : Nat
deriving DecidableEq, Repr

/-- Embedding of `SearchResources._load_components`: attempt the load; a
missing index file or missing mapping file raises, leaving `_initialized`
false; otherwise `_initialized` becomes true.  The source performs no
comparison of index size against mapping length, so the fields
`indexSize` / `mappingLen` are not read. -/
def loadComponents (env : SREnv) (s : SRState) : SRState × Except PyError Unit :=
  if ¬ env.indexFileExists then
    (⟨false, s.loadCount + 1⟩, .error (.raised "FAISS index not found"))
  else if ¬ env.mappingFileExists then
    (⟨false, s.loadCount + 1⟩, .error (.raised "Slokas mapping not found"))
  else
    (⟨true, s.loadCount + 1⟩, .ok ())

/-- Embedding of `SearchResources.__init__` on the shared instance: if
`_initialized` is set, return at once; otherwise run `_load_components`
(again — a prior failure is not latched). -/
def initCall (env : SREnv) (s : SRState) : SRState × Except PyError Unit :=
  if s.initialized then (s, .ok ()) else loadComponents env s

/-! ### Route-level semantic search (`semantic_search/routes.py`) -/

/-- One FAISS hit as consumed by the route-level `semantic_search`: a raw
ANN distance paired with an index position. -/
structure AnnHit where
  distance : ℝ
  position : Nat

/-- A result record of the route-level `semantic_search`; both branches
(detailed record found or fallback) carry the same coordinate and score
fields, so only the branch taken is abstracted into `hasDetail`. -/
structure SearchResult where
  mandala : Int
  hymn_number : Int
  sloka_number : Int
  similarity_score : ℝ
  distance : ℝ
  hasDetail : Bool

/-- Embedding of the similarity computation of `semantic_search`
(`similarity = math.exp(-distance)`), over the reals. -/
noncomputable def similarity (distance : ℝ) : ℝ := Real.exp (-distance)

/-- Embedding of `semantic_search` (`semantic_search/routes.py`): for each
FAISS hit whose position is within the mapping (`idx <
len(resources.slokas_list)` — positions beyond it are silently dropped),
build a result carrying `similarity_score = exp(-distance)` and the raw
distance, regardless of whether the detailed record was found. -/
noncomputable def semantic_search (mapping : List SlokaMapEntry)
    (detail : Int → Int → Int → Option Stanza) (hits : List AnnHit) : List SearchResult :=
  hits.filterMap (fun hit =>
    match mapping.get? hit.position with
    | none => none
    | some info =>
      some { mandala := info.mandala
             hymn_number := info.hymn_number
             sloka_number := info.sloka_number
             similarity_score := similarity hit.distance
             distance := hit.distance
             hasDetail := (detail info.mandala info.hymn_number info.sloka_number).isSome })

/-- The guard at the top of `semantic_search`: when the resource is not
initialized, `raise Exception("Search components not properly loaded")`. -/
noncomputable def semantic_search_checked (s : SRState) (mapping : List SlokaMapEntry)
    (detail : Int → Int → Int → Option Stanza) (hits : List AnnHit) :
    Except PyError (List SearchResult) :=
  if ¬ s.initialized then .error (.raised "Search components not properly loaded")
  else .ok (semantic_search mapping detail hits)

/-! ### Concrete environments for witnesses and counterexamples -/

/-- A two-stanza dataset file for mandala 1. -/
def mandala1Data : MandalaData :=
  ⟨[⟨1, [⟨1, "01.001.01", "sk1", "tr1"⟩, ⟨2, "01.001.02", "sk2", "tr2"⟩]⟩]⟩

/-- A bounds table recording mandala 1 with hymn 1 of 2 slokas. -/
def index1 : VedaIndex := ⟨[⟨1, [⟨1, 2⟩]⟩]⟩

/-- The dataset function serving `mandala1Data` for mandala 1. -/
def dataset1 : Int → Option MandalaData := fun n => if n = 1 then some mandala1Data else none

/-- A two-entry FAISS mapping aligned with `index1`. -/
def mapping1 : List SlokaMapEntry := [⟨1, 1, 1, "t0"⟩, ⟨1, 1, 2, "t1"⟩]

/-- Base concrete environment: `index1` / `dataset1` / `mapping1`, an ANN
returning position 1, and a generator answering "ANS"; only the classifier
varies between scenarios. -/
def mkEnv (classify : String → Except String (List IntentObj)) : Env :=
  { classify := classify
    index := index1
    dataset := dataset1
    ann := fun _ _ => [1]
    mapping := mapping1
    generate := fun _ _ => .ok "ANS" }

/-- A `fetch_by_location` intent for coordinate (1, 1, 1). -/
def iFetch111 : IntentObj := ⟨some "fetch_by_location", 1, 1, 1, "", ""⟩

/-- A `fetch_by_location` intent for the out-of-bounds coordinate
(99, 1, 1). -/
def iFetchBad : IntentObj := ⟨some "fetch_by_location", 99, 1, 1, "", ""⟩

/-- A `semantic_search` intent with keywords "fire". -/
def iSem : IntentObj := ⟨some "semantic_search", 0, 0, 0, "fire", ""⟩

/-- An `other_question` intent. -/
def iOther : IntentObj := ⟨some "other_question", 0, 0, 0, "", ""⟩

/-- An `asking_question` intent. -/
def iAsk : IntentObj := ⟨some "asking_question", 0, 0, 0, "", "what?"⟩

/-- An intent object whose dictionary lacks the `intent` key. -/
def iNoKey : IntentObj := ⟨none, 0, 0, 0, "", ""⟩

/-- An intent object with a tag outside the four dispatched tags. -/
def iUnknown : IntentObj := ⟨some "mystery", 0, 0, 0, "", ""⟩

/-- The evidence item for coordinate (1, 1, 1) under `dataset1`. -/
def e111 : Evidence := ⟨"01.001.01", "sk1", "tr1"⟩

/-- The evidence item for coordinate (1, 1, 2) under `dataset1`. -/
def e112 : Evidence := ⟨"01.001.02", "sk2", "tr2"⟩

/-- A mix of one semantic-search and one coordinate intent, semantic first. -/
def envMix : Env := mkEnv (fun _ => .ok [iSem, iFetch111])

/-- A single out-of-bounds coordinate intent. -/
def envBadFetch : Env := mkEnv (fun _ => .ok [iFetchBad])

/-- An out-of-domain intent listed before a failing coordinate intent. -/
def envOtherFirst : Env := mkEnv (fun _ => .ok [iOther, iFetchBad])

/-- A coordinate intent listed before an out-of-domain intent. -/
def envFetchOther : Env := mkEnv (fun _ => .ok [iFetch111, iOther])

/-- A succeeding coordinate intent, then a failing one, then a semantic one. -/
def envPreBad : Env := mkEnv (fun _ => .ok [iFetch111, iFetchBad, iSem])

/-- An environment whose single ANN neighbor (1, 1, 1) passes bounds
validation but has no dataset file behind it. -/
def envDatasetGone : Env :=
  { classify := fun _ => .ok []
    index := ⟨[⟨1, [⟨1, 1⟩]⟩]⟩
    dataset := fun _ => none
    ann := fun _ _ => [0]
    mapping := [⟨1, 1, 1, "t"⟩]
    generate := fun _ _ => .ok "ANS" }

/-- A bounds table with mandala 2, hymn 3, one sloka (for the offending-field
comparison). -/
def indexB : VedaIndex := ⟨[⟨2, [⟨3, 1⟩]⟩]⟩

/-- On-disk state with the FAISS index file missing. -/
def srEnvMissing : SREnv := ⟨false, true, 0, 0⟩

/-- On-disk state with both files present but index size 5 against mapping
length 3. -/
def srEnvMismatch : SREnv := ⟨true, true, 5, 3⟩

/-- A well-formed coordinate intent followed by an element lacking the
`intent` key. -/
def envNoKey : Env := mkEnv (fun _ => .ok [iFetch111, iNoKey])

/-- An out-of-domain intent followed by an element lacking the `intent`
key. -/
def envOtherNoKey : Env := mkEnv (fun _ => .ok [iOther, iNoKey])

/-- One-entry mapping for the route-level search witness. -/
def wMapping : List SlokaMapEntry := [⟨1, 1, 1, "t"⟩]

/-- A detail lookup that finds nothing (fallback branch). -/
def wDetail : Int → Int → Int → Option Stanza := fun _ _ _ => none

/-- A FAISS hit at distance 1 on position 0. -/
noncomputable def wHit : AnnHit := ⟨1, 0⟩

/-- The result the route-level search builds from `wHit` over `wMapping`. -/
noncomputable def wResult : SearchResult := ⟨1, 1, 1, similarity 1, 1, false⟩

end RigVeda

namespace RigVeda

/-! ### Helper lemmas -/

theorem scanOther_ok_false {l : List IntentObj}
    (hkeys : ∀ i ∈ l, i.intent.isSome)
    (hno : ∀ i ∈ l, i.intent ≠ some "other_question") :
    scanOther l = .ok false := by
  induction l with
  | nil => rfl
  | cons i rest ih =>
    obtain ⟨t, ht⟩ := Option.isSome_iff_exists.mp (hkeys i (List.mem_cons_self i rest))
    have hn : t ≠ "other_question" := by
      intro hEq
      exact hno i (List.mem_cons_self i rest) (by rw [ht, hEq])
    simp only [scanOther, ht]
    rw [if_neg hn]
    exact ih (fun j hj => hkeys j (List.mem_cons_of_mem i hj))
      (fun j hj => hno j (List.mem_cons_of_mem i hj))

theorem scanOther_ok_true {l : List IntentObj}
    (hkeys : ∀ i ∈ l, i.intent.isSome)
    (hmem : ∃ i ∈ l, i.intent = some "other_question") :
    scanOther l = .ok true := by
  induction l with
  | nil => simp at hmem
  | cons i rest ih =>
    obtain ⟨t, ht⟩ := Option.isSome_iff_exists.mp (hkeys i (List.mem_cons_self i rest))
    simp only [scanOther, ht]
    by_cases hq : t = "other_question"
    · rw [if_pos hq]
    · rw [if_neg hq]
      obtain ⟨j, hj, hjt⟩ := hmem
      rcases List.mem_cons.mp hj with hEq | hjr
      · rw [hEq, ht] at hjt
        exact absurd (Option.some_inj.mp hjt) hq
      · exact ih (fun k hk => hkeys k (List.mem_cons_of_mem i hk)) ⟨j, hjr, hjt⟩

theorem fetchLoop_ok {index : VedaIndex} {dataset : Int → Option MandalaData}
    {l : List IntentObj}
    (hkeys : ∀ i ∈ l, i.intent.isSome)
    (hfetch : ∀ i ∈ l, i.intent = some "fetch_by_location" →
      ∃ items, sloka_search index dataset i.mandala i.hymn i.sloka = .ok (.items items)) :
    fetchLoop index dataset l = .ok (.ok (fetchEvidenceOf index dataset l)) := by
  induction l with
  | nil => rfl
  | cons i rest ih =>
    obtain ⟨t, ht⟩ := Option.isSome_iff_exists.mp (hkeys i (List.mem_cons_self i rest))
    have ihr := ih (fun j hj => hkeys j (List.mem_cons_of_mem i hj))
      (fun j hj => hfetch j (List.mem_cons_of_mem i hj))
    by_cases hf : t = "fetch_by_location"
    · subst hf
      obtain ⟨items, hitems⟩ := hfetch i (List.mem_cons_self i rest) ht
      have hev : evidenceOfTriple index dataset i.mandala i.hymn i.sloka = items := by
        simp [evidenceOfTriple, hitems]
      simp [fetchLoop, fetchEvidenceOf, ht, hitems, ihr, hev]
    · simp [fetchLoop, fetchEvidenceOf, ht, hf, ihr]

theorem semIntentLoop_ok {env : Env} {l : List IntentObj}
    (hkeys : ∀ i ∈ l, i.intent.isSome)
    (hsem : ∀ i ∈ l, i.intent = some "semantic_search" →
      ∃ items, semantic_search_slokas env i.keywords = .ok items) :
    semIntentLoop env l = .ok (semEvidenceOf env l) := by
  induction l with
  | nil => rfl
  | cons i rest ih =>
    obtain ⟨t, ht⟩ := Option.isSome_iff_exists.mp (hkeys i (List.mem_cons_self i rest))
    have ihr := ih (fun j hj => hkeys j (List.mem_cons_of_mem i hj))
      (fun j hj => hsem j (List.mem_cons_of_mem i hj))
    by_cases hs : t = "semantic_search"
    · subst hs
      obtain ⟨items, hitems⟩ := hsem i (List.mem_cons_self i rest) ht
      have hev : evidenceOfSemIntent env i = items := by
        simp [evidenceOfSemIntent, hitems]
      simp [semIntentLoop, semEvidenceOf, ht, hitems, ihr, hev]
    · simp [semIntentLoop, semEvidenceOf, ht, hs, ihr]

theorem questionsOf_ok {l : List IntentObj}
    (hkeys : ∀ i ∈ l, i.intent.isSome) :
    questionsOf l = .ok (pureQuestions l) := by
  induction l with
  | nil => rfl
  | cons i rest ih =>
    obtain ⟨t, ht⟩ := Option.isSome_iff_exists.mp (hkeys i (List.mem_cons_self i rest))
    have ihr := ih (fun j hj => hkeys j (List.mem_cons_of_mem i hj))
    by_cases ha : t = "asking_question"
    · subst ha
      simp [questionsOf, pureQuestions, ht, ihr]
    · simp [questionsOf, pureQuestions, ht, ha, ihr]

theorem lookupPositions_ok {mapping : List SlokaMapEntry} {ps : List Nat}
    (h : ∀ p ∈ ps, p < mapping.length) :
    lookupPositions mapping ps = .ok (ps.filterMap (fun p => mapping.get? p)) := by
  induction ps with
  | nil => rfl
  | cons p ps ih =>
    obtain ⟨e, he⟩ : ∃ e, mapping.get? p = some e := by
      cases hg : mapping.get? p with
      | none => exact absurd (List.get?_eq_none.mp hg) (Nat.not_le.mpr (h p (List.mem_cons_self p ps)))
      | some e => exact ⟨e, rfl⟩
    simp only [lookupPositions, he, ih (fun q hq => h q (List.mem_cons_of_mem p hq)),
      List.filterMap_cons, he]

theorem semLoopNeighbors_ok {index : VedaIndex} {dataset : Int → Option MandalaData}
    {entries : List SlokaMapEntry}
    (h : ∀ s ∈ entries, ∃ r,
      sloka_search index dataset s.mandala s.hymn_number s.sloka_number = .ok r) :
    semLoopNeighbors index dataset entries =
      .ok (entries.flatMap (neighborItems index dataset)) := by
  induction entries with
  | nil => rfl
  | cons s rest ih =>
    obtain ⟨r, hr⟩ := h s (List.mem_cons_self s rest)
    have ihr := ih (fun u hu => h u (List.mem_cons_of_mem s hu))
    cases r with
    | err msg =>
      simp only [semLoopNeighbors, hr, ihr, List.flatMap_cons]
      have : neighborItems index dataset s = [] := by
        simp [neighborItems, evidenceOfTriple, hr]
      rw [this]
      rfl
    | items items =>
      simp only [semLoopNeighbors, hr, ihr, List.flatMap_cons]
      have : neighborItems index dataset s = items := by
        simp [neighborItems, evidenceOfTriple, hr]
      rw [this]

theorem semantic_search_slokas_eq {env : Env} {q : String}
    (hpos : ∀ p ∈ env.ann q 2, p < env.mapping.length)
    (hres : ∀ entry ∈ (env.ann q 2).filterMap (fun p => env.mapping.get? p),
      ∃ r, sloka_search env.index env.dataset
        entry.mandala entry.hymn_number entry.sloka_number = .ok r) :
    semantic_search_slokas env q =
      .ok (((env.ann q 2).filterMap (fun p => env.mapping.get? p)).flatMap
        (neighborItems env.index env.dataset)) := by
  unfold semantic_search_slokas
  rw [lookupPositions_ok hpos]
  exact semLoopNeighbors_ok hres

theorem fetchLoop_first_failure {index : VedaIndex} {dataset : Int → Option MandalaData}
    {pre : List IntentObj} {bad : IntentObj} {post : List IntentObj}
    (hkeys : ∀ i ∈ pre, i.intent.isSome)
    (hpre : ∀ i ∈ pre, i.intent = some "fetch_by_location" →
      ∃ items, sloka_search index dataset i.mandala i.hymn i.sloka = .ok (.items items))
    (hbadtag : bad.intent = some "fetch_by_location")
    (hbadcoord : is_valid_number index bad.mandala bad.hymn bad.sloka = false) :
    fetchLoop index dataset (pre ++ bad :: post) =
      .ok (.error (slokaErrMsg bad.mandala bad.hymn bad.sloka)) := by
  induction pre with
  | nil =>
    have hss : sloka_search index dataset bad.mandala bad.hymn bad.sloka =
        .ok (.err (slokaErrMsg bad.mandala bad.hymn bad.sloka)) := by
      simp [sloka_search, hbadcoord]
    simp [fetchLoop, hbadtag, hss]
  | cons i pre ih =>
    obtain ⟨t, ht⟩ := Option.isSome_iff_exists.mp (hkeys i (List.mem_cons_self i pre))
    have ihr := ih (fun j hj => hkeys j (List.mem_cons_of_mem i hj))
      (fun j hj => hpre j (List.mem_cons_of_mem i hj))
    by_cases hf : t = "fetch_by_location"
    · subst hf
      obtain ⟨items, hitems⟩ := hpre i (List.mem_cons_self i pre) ht
      simp [fetchLoop, ht, hitems, ihr]
    · simp [fetchLoop, ht, hf, ihr]

/-! ### Claim theorems -/

/-- C2 (demonstration of the code bug): the coordinate-fetch-failure
terminal outcome of `get_answer` returns the
`{"Message": "Error fetching sloka", ...}` envelope with an empty list of
logger invocations — the source computes `processing_time`, prints, and
returns without ever calling `logger.log_chat_bot_interaction`, although
its inline comment says it logs; every other terminal outcome logs exactly
once.  This contradicts the claim that the logging collaborator is invoked
exactly once for every terminal outcome. -/
theorem c2_fetch_error_path_logs_nothing :
    get_answer envBadFetch "meaning of 99.1.1" =
      .ok (.fetchError (slokaErrMsg 99 1 1), []) := rfl

/-- C3 (counterexample to the claim as stated): an intent list that contains
a failing `FetchByLocation` intent but also an `other_question` intent does
not abort with the fetch failure — the out-of-domain scan runs first and
returns the rejection envelope, whose `Message` is not
"Error fetching sloka". -/
theorem c3_other_question_preempts_fetch_failure :
    get_answer envOtherFirst "q" =
      .ok (.unrelated,
        [⟨"q", "Intent: " ++ intentsRepr [iOther, iFetchBad], [iOther, iFetchBad], false⟩]) ∧
    Envelope.unrelated.message ≠ "Error fetching sloka" := by
  exact ⟨rfl, by decide⟩

/-- C3 (amended): for every classified intent list with every element
tagged, no `other_question` intent, whose `fetch_by_location` intents
before `bad` all resolve successfully, and where `bad` is a
`fetch_by_location` intent failing bounds validation, `get_answer` returns
the `{"Message": "Error fetching sloka", "error": <that failure's error>}`
envelope carrying no evidence, with no logger invocation; the environment's
`ann`, `mapping` and `generate` components are unconstrained, so no
semantic search and no generation call can influence this outcome. -/
theorem c3_fetch_failure_aborts (env : Env) (q : String)
    (pre post : List IntentObj) (bad : IntentObj)
    (hclassify : env.classify q = .ok (pre ++ bad :: post))
    (hkeys : ∀ i ∈ pre ++ bad :: post, i.intent.isSome)
    (hno : ∀ i ∈ pre ++ bad :: post, i.intent ≠ some "other_question")
    (hpre : ∀ i ∈ pre, i.intent = some "fetch_by_location" →
      ∃ items, sloka_search env.index env.dataset i.mandala i.hymn i.sloka = .ok (.items items))
    (hbadtag : bad.intent = some "fetch_by_location")
    (hbadcoord : is_valid_number env.index bad.mandala bad.hymn bad.sloka = false) :
    get_answer env q =
      .ok (.fetchError (slokaErrMsg bad.mandala bad.hymn bad.sloka), []) := by
  simp only [get_answer, hclassify, scanOther_ok_false hkeys hno,
    fetchLoop_first_failure (fun i hi => hkeys i (List.mem_append_left _ hi))
      hpre hbadtag hbadcoord]

/-- Witness for the amended C3: a succeeding fetch, a failing fetch, then a
semantic intent, evaluated concretely. -/
theorem c3_fetch_failure_aborts_witness :
    get_answer envPreBad "q" = .ok (.fetchError (slokaErrMsg 99 1 1), []) := by
  have h := c3_fetch_failure_aborts envPreBad "q" [iFetch111] [iSem] iFetchBad rfl
    (by decide) (by decide)
    (fun i hi _ => by
      rw [List.mem_singleton] at hi
      subst hi
      exact ⟨[e111], rfl⟩)
    (by decide) (by decide)
  exact h

/-- C4 (confirmed): an intent list containing an `other_question` intent —
here with every element carrying the `intent` key, as the classifier's
tagged-variant data model guarantees — makes `get_answer` return the fixed
rejection envelope with `Message`
"Sorry, I can only answer questions related to the Rig Veda." and `error`
"unrelated question", whatever the other intents are; the environment's
`dataset`, `ann`, `mapping` and `generate` components are universally
quantified and unconstrained, so no coordinate lookup, semantic search, or
generation call is performed or can influence the result. -/
theorem c4_other_question_rejection (env : Env) (q : String) (l : List IntentObj)
    (hclassify : env.classify q = .ok l)
    (hkeys : ∀ i ∈ l, i.intent.isSome)
    (hmem : ∃ i ∈ l, i.intent = some "other_question") :
    get_answer env q = .ok (.unrelated, [⟨q, "Intent: " ++ intentsRepr l, l, false⟩]) ∧
    Envelope.unrelated.message = "Sorry, I can only answer questions related to the Rig Veda." ∧
    Envelope.unrelated.errorField = some "unrelated question" := by
  refine ⟨?_, rfl, rfl⟩
  simp only [get_answer, hclassify, scanOther_ok_true hkeys hmem]

/-- Witness for C4: a coordinate intent listed before the out-of-domain
intent, evaluated concretely. -/
theorem c4_other_question_rejection_witness :
    get_answer envFetchOther "tell me about politics" =
      .ok (.unrelated,
        [⟨"tell me about politics", "Intent: " ++ intentsRepr [iFetch111, iOther],
          [iFetch111, iOther], false⟩]) ∧
    Envelope.unrelated.message = "Sorry, I can only answer questions related to the Rig Veda." ∧
    Envelope.unrelated.errorField = some "unrelated question" :=
  c4_other_question_rejection envFetchOther "tell me about politics" [iFetch111, iOther]
    rfl (by decide) (by decide)

/-- C6 (counterexample to the claim as stated): a successful invocation of
`get_answer` returns the `{"Message", "intents", "slokas", "answer"}` dict
— there is no `timing_ms` field — and the failure envelopes have a
different key set (`{"Message", "error"}`) than the success envelope, also
without `timing_ms`. -/
theorem c6_no_timing_field :
    get_answer envMix "q" =
      .ok (.success [iSem, iFetch111] [e111, e112] "ANS",
        [⟨"q", assembleContext [iSem, iFetch111] [e111, e112] [], [iSem, iFetch111], true⟩]) ∧
    "timing_ms" ∉ Envelope.keys (.success [iSem, iFetch111] [e111, e112] "ANS") ∧
    get_answer envBadFetch "q" = .ok (.fetchError (slokaErrMsg 99 1 1), []) ∧
    Envelope.keys (.fetchError (slokaErrMsg 99 1 1)) ≠
      Envelope.keys (.success [iSem, iFetch111] [e111, e112] "ANS") ∧
    "timing_ms" ∉ Envelope.keys (.fetchError (slokaErrMsg 99 1 1)) := by
  exact ⟨rfl, by decide, rfl, by decide, by decide⟩

/-- C6 (amended): every envelope `get_answer` returns carries a `Message`
key and never a `timing_ms` key; the failure envelopes share the key set
`{"Message", "error"}` while the success envelope has
`{"Message", "intents", "slokas", "answer"}` — timing is passed only to the
logging collaborator, not placed in the envelope. -/
theorem c6_envelope_shapes (env : Env) (q : String) (e : Envelope) (logs : List LogEntry)
    (h : get_answer env q = .ok (e, logs)) :
    "Message" ∈ e.keys ∧ "timing_ms" ∉ e.keys ∧
      (e.keys = ["Message", "error"] ∨
        e.keys = ["Message", "intents", "slokas", "answer"]) := by
  cases e <;> simp [Envelope.keys]

/-- Witness for the amended C6: the success envelope of the mixed-intent
environment. -/
theorem c6_envelope_shapes_witness :
    "Message" ∈ Envelope.keys (.success [iSem, iFetch111] [e111, e112] "ANS") ∧
    "timing_ms" ∉ Envelope.keys (.success [iSem, iFetch111] [e111, e112] "ANS") ∧
      (Envelope.keys (.success [iSem, iFetch111] [e111, e112] "ANS") = ["Message", "error"] ∨
        Envelope.keys (.success [iSem, iFetch111] [e111, e112] "ANS") =
          ["Message", "intents", "slokas", "answer"]) :=
  c6_envelope_shapes envMix "q"
    (.success [iSem, iFetch111] [e111, e112] "ANS")
    [⟨"q", assembleContext [iSem, iFetch111] [e111, e112] [], [iSem, iFetch111], true⟩] rfl

/-- C7 (counterexample to the claim as stated): the same out-of-bounds
triple (2, 3, 5) yields the identical error value under a bounds table
where the collection is the offending field and under one where the item is
the offending field; the uniform
"Invalid mandala, hymn, or sloka number: 2, 3, 5" error therefore does not
reference the exact offending field. -/
theorem c7_error_not_field_specific :
    offendingField index1 2 3 5 = some .collection ∧
    offendingField indexB 2 3 5 = some .item ∧
    sloka_search index1 dataset1 2 3 5 = .ok (.err (slokaErrMsg 2 3 5)) ∧
    sloka_search indexB dataset1 2 3 5 = .ok (.err (slokaErrMsg 2 3 5)) :=
  ⟨rfl, rfl, rfl, rfl⟩

/-- C7 (amended): a triple within the recorded bounds whose record is
present on disk yields exactly one evidence item; a triple outside the
bounds yields the error dictionary whose message lists the full queried
triple — the same message whichever field is offending. -/
theorem c7_bounds_dichotomy (index : VedaIndex) (dataset : Int → Option MandalaData)
    (mandala hymn sloka : Int) :
    (is_valid_number index mandala hymn sloka = true →
      ∀ stanza, get_sloka dataset mandala hymn sloka = .ok stanza →
        sloka_search index dataset mandala hymn sloka =
          .ok (.items [⟨stanza.location, stanza.sanskrit, stanza.translation⟩])) ∧
    (is_valid_number index mandala hymn sloka = false →
      sloka_search index dataset mandala hymn sloka =
        .ok (.err (slokaErrMsg mandala hymn sloka))) := by
  constructor
  · intro hv stanza hst
    simp [sloka_search, hv, hst]
  · intro hv
    simp [sloka_search, hv]

/-- Witness for the amended C7: the in-bounds triple (1, 1, 1) and the
out-of-bounds triple (99, 1, 1) under the concrete bounds table. -/
theorem c7_bounds_dichotomy_witness :
    sloka_search index1 dataset1 1 1 1 = .ok (.items [e111]) ∧
    sloka_search index1 dataset1 99 1 1 = .ok (.err (slokaErrMsg 99 1 1)) :=
  ⟨(c7_bounds_dichotomy index1 dataset1 1 1 1).1 rfl ⟨1, "01.001.01", "sk1", "tr1"⟩ rfl,
   (c7_bounds_dichotomy index1 dataset1 99 1 1).2 rfl⟩

/-- C1 (counterexample to the claim as stated): under `envMix` the
classified list places the semantic-search intent first (index 0) and the
coordinate intent second (index 1); the semantic intent's only possible
evidence is `e112` (its single ANN neighbor) and the coordinate intent's
is `e111`, yet the returned evidence list is `[e111, e112]` — evidence from
the later intent precedes evidence from the earlier one, because the source
runs the whole coordinate-fetch loop before the semantic-search loop. -/
theorem c1_intent_order_refuted :
    get_answer envMix "q" =
      .ok (.success [iSem, iFetch111] [e111, e112] "ANS",
        [⟨"q", assembleContext [iSem, iFetch111] [e111, e112] [], [iSem, iFetch111], true⟩]) ∧
    evidenceOfSemIntent envMix iSem = [e112] ∧
    evidenceOfTriple envMix.index envMix.dataset 1 1 1 = [e111] ∧
    e111 ≠ e112 := by
  exact ⟨rfl, rfl, rfl, by decide⟩

/-- C1 (amended): the evidence list of a successful pipeline run is the
concatenation of all coordinate-fetch evidence (in the order of those
intents) followed by all semantic-search evidence (in the order of those
intents); and within a single semantic-search intent, the evidence items
preserve the order of the ANN neighbor list at the fixed k = 2 — the
ascending-distance order FAISS returns, hence descending `exp(-distance)`
similarity — with invalid neighbors skipped. -/
theorem c1_evidence_grouped_by_kind (env : Env) (q ans : String) (l : List IntentObj)
    (hclassify : env.classify q = .ok l)
    (hkeys : ∀ i ∈ l, i.intent.isSome)
    (hno : ∀ i ∈ l, i.intent ≠ some "other_question")
    (hfetch : ∀ i ∈ l, i.intent = some "fetch_by_location" →
      ∃ items, sloka_search env.index env.dataset i.mandala i.hymn i.sloka = .ok (.items items))
    (hsem : ∀ i ∈ l, i.intent = some "semantic_search" →
      ∃ items, semantic_search_slokas env i.keywords = .ok items)
    (hgen : ∀ c, env.generate c q = .ok ans) :
    (∃ entry : LogEntry, get_answer env q =
      .ok (.success l
        (fetchEvidenceOf env.index env.dataset l ++ semEvidenceOf env l) ans, [entry])) ∧
    (∀ keywords : String,
      (∀ p ∈ env.ann keywords 2, p < env.mapping.length) →
      (∀ entry ∈ (env.ann keywords 2).filterMap (fun p => env.mapping.get? p),
        ∃ r, sloka_search env.index env.dataset
          entry.mandala entry.hymn_number entry.sloka_number = .ok r) →
      semantic_search_slokas env keywords =
        .ok (((env.ann keywords 2).filterMap (fun p => env.mapping.get? p)).flatMap
          (neighborItems env.index env.dataset))) := by
  constructor
  · refine ⟨⟨q, assembleContext l
      (fetchEvidenceOf env.index env.dataset l ++ semEvidenceOf env l)
      (pureQuestions l), l, true⟩, ?_⟩
    simp only [get_answer, hclassify, scanOther_ok_false hkeys hno,
      fetchLoop_ok hkeys hfetch, semIntentLoop_ok hkeys hsem, questionsOf_ok hkeys, hgen]
  · exact fun kw hpos hres => semantic_search_slokas_eq hpos hres

/-- Witness for the amended C1: the mixed-intent environment, where the
grouped evidence list evaluates to `[e111, e112]`. -/
theorem c1_evidence_grouped_by_kind_witness :
    (∃ entry : LogEntry, get_answer envMix "q" =
      .ok (.success [iSem, iFetch111]
        (fetchEvidenceOf envMix.index envMix.dataset [iSem, iFetch111] ++
          semEvidenceOf envMix [iSem, iFetch111]) "ANS", [entry])) ∧
    fetchEvidenceOf envMix.index envMix.dataset [iSem, iFetch111] ++
      semEvidenceOf envMix [iSem, iFetch111] = [e111, e112] := by
  have h := c1_evidence_grouped_by_kind envMix "q" "ANS" [iSem, iFetch111] rfl
    (by decide) (by decide)
    (fun i hi htag => ⟨[e111], by
      rcases List.mem_cons.mp hi with h1 | h2
      · rw [h1] at htag
        exact absurd htag (by decide)
      · rw [List.mem_singleton] at h2
        rw [h2]
        rfl⟩)
    (fun i hi htag => ⟨[e112], by
      rcases List.mem_cons.mp hi with h1 | h2
      · rw [h1]
        rfl
      · rw [List.mem_singleton] at h2
        rw [h2] at htag
        exact absurd htag (by decide)⟩)
    (fun c => rfl)
  exact ⟨h.1, rfl⟩

/-- C8 (counterexample to the claim as stated): an ANN neighbor whose
coordinate (1, 1, 1) passes bounds validation but whose mandala file is
absent makes `semantic_search_slokas` raise the underlying lookup's 404
abort instead of skipping the neighbor — the call ends in an error, not a
(shorter) evidence list. -/
theorem c8_valid_neighbor_missing_record_raises :
    is_valid_number envDatasetGone.index 1 1 1 = true ∧
    envDatasetGone.ann "q" 2 = [0] ∧
    semantic_search_slokas envDatasetGone "q" =
      .error (.httpAbort 404 "Mandala data not found") :=
  ⟨rfl, rfl, rfl⟩

/-- C8 (amended): `semantic_search_slokas` always queries the ANN index at
the fixed k = 2; neighbors rejected by bounds validation contribute no
evidence and are skipped without failing the call; and provided every
in-range neighbor's lookup returns normally (bounds-valid neighbors have
their records on disk), the call returns the concatenated evidence of the
neighbors in ANN order — but a bounds-valid neighbor whose record is
missing makes the underlying lookup raise, which is fatal to the call. -/
theorem c8_semantic_search_policy (env : Env) (q : String)
    (hpos : ∀ p ∈ env.ann q 2, p < env.mapping.length)
    (hres : ∀ entry ∈ (env.ann q 2).filterMap (fun p => env.mapping.get? p),
      ∃ r, sloka_search env.index env.dataset
        entry.mandala entry.hymn_number entry.sloka_number = .ok r) :
    semantic_search_slokas env q =
      .ok (((env.ann q 2).filterMap (fun p => env.mapping.get? p)).flatMap
        (neighborItems env.index env.dataset)) ∧
    ∀ entry : SlokaMapEntry,
      is_valid_number env.index entry.mandala entry.hymn_number entry.sloka_number = false →
      neighborItems env.index env.dataset entry = [] := by
  refine ⟨semantic_search_slokas_eq hpos hres, ?_⟩
  intro entry hinv
  simp [neighborItems, evidenceOfTriple, sloka_search, hinv]

/-- Witness for the amended C8: the mixed environment's single in-range
neighbor, plus a bounds-invalid neighbor contributing nothing. -/
theorem c8_semantic_search_policy_witness :
    semantic_search_slokas envMix "fire" =
      .ok (((envMix.ann "fire" 2).filterMap (fun p => envMix.mapping.get? p)).flatMap
        (neighborItems envMix.index envMix.dataset)) ∧
    neighborItems envMix.index envMix.dataset ⟨9, 9, 9, "x"⟩ = [] := by
  have h := c8_semantic_search_policy envMix "fire" (by decide)
    (fun entry he => ⟨.items [e112], by
      have : entry = (⟨1, 1, 2, "t1"⟩ : SlokaMapEntry) := by
        simpa [envMix, mkEnv, mapping1, List.filterMap] using he
      rw [this]
      rfl⟩)
  exact ⟨h.1, h.2 ⟨9, 9, 9, "x"⟩ rfl⟩

/-- C5 (counterexample to the claim as stated): with the index file
missing, a first resource call fails and a second call re-attempts the
load (the load count reaches 2, and each call raises the load exception
afresh rather than reporting a latched error); and with both files present
but the index size (5) differing from the mapping length (3),
initialization succeeds — the mismatch is never checked, so it is not an
initialization failure at all. -/
theorem c5_retry_and_missing_mismatch_check :
    (initCall srEnvMissing ⟨false, 0⟩).2 = .error (.raised "FAISS index not found") ∧
    (initCall srEnvMissing (initCall srEnvMissing ⟨false, 0⟩).1).2 =
      .error (.raised "FAISS index not found") ∧
    (initCall srEnvMissing (initCall srEnvMissing ⟨false, 0⟩).1).1.loadCount = 2 ∧
    srEnvMismatch.indexSize ≠ srEnvMismatch.mappingLen ∧
    (initCall srEnvMismatch ⟨false, 0⟩).1.initialized = true ∧
    (initCall srEnvMismatch ⟨false, 0⟩).2 = .ok () := by
  exact ⟨rfl, rfl, rfl, by decide, rfl, rfl⟩

/-- C5 (amended): a failed load leaves `_initialized` false and raises, and
every subsequent call on the uninitialized resource re-attempts the load
(incrementing the attempt count) and raises the same way; when both files
exist, initialization succeeds for every index size and mapping length —
mismatches are not detected; a search invoked while uninitialized raises
"Search components not properly loaded"; and a search under a mismatch
silently drops positions beyond the mapping instead of crashing. -/
theorem c5_init_failure_behavior :
    (∀ (env : SREnv) (s : SRState), s.initialized = false → env.indexFileExists = false →
      (initCall env s).1.initialized = false ∧
      (initCall env s).1.loadCount = s.loadCount + 1 ∧
      (initCall env s).2 = .error (.raised "FAISS index not found")) ∧
    (∀ (env : SREnv) (s : SRState), s.initialized = false →
      env.indexFileExists = true → env.mappingFileExists = true →
      (initCall env s).1.initialized = true ∧ (initCall env s).2 = .ok ()) ∧
    (∀ (s : SRState) (mapping : List SlokaMapEntry)
        (detail : Int → Int → Int → Option Stanza) (hits : List AnnHit),
      s.initialized = false →
      semantic_search_checked s mapping detail hits =
        .error (.raised "Search components not properly loaded")) ∧
    (∀ (mapping : List SlokaMapEntry) (detail : Int → Int → Int → Option Stanza)
        (hit : AnnHit) (hits : List AnnHit), mapping.length ≤ hit.position →
      semantic_search mapping detail (hit :: hits) = semantic_search mapping detail hits) := by
  refine ⟨?_, ?_, ?_, ?_⟩
  · intro env s hs he
    simp [initCall, loadComponents, hs, he]
  · intro env s hs h1 h2
    simp [initCall, loadComponents, hs, h1, h2]
  · intro s mapping detail hits hs
    simp [semantic_search_checked, hs]
  · intro mapping detail hit hits hlen
    have hnone : mapping.get? hit.position = none := List.get?_eq_none.mpr hlen
    unfold semantic_search
    rw [List.filterMap_cons, hnone]

/-- Witness for the amended C5: the missing-index environment, the
mismatched-size environment, an uninitialized search, and an out-of-range
hit at position 7 against the one-entry mapping. -/
theorem c5_init_failure_behavior_witness :
    ((initCall srEnvMissing ⟨false, 0⟩).1.initialized = false ∧
      (initCall srEnvMissing ⟨false, 0⟩).1.loadCount = 0 + 1 ∧
      (initCall srEnvMissing ⟨false, 0⟩).2 = .error (.raised "FAISS index not found")) ∧
    ((initCall srEnvMismatch ⟨false, 0⟩).1.initialized = true ∧
      (initCall srEnvMismatch ⟨false, 0⟩).2 = .ok ()) ∧
    semantic_search_checked ⟨false, 0⟩ wMapping wDetail [] =
      .error (.raised "Search components not properly loaded") ∧
    semantic_search wMapping wDetail (⟨2, 7⟩ :: []) = semantic_search wMapping wDetail [] := by
  obtain ⟨h1, h2, h3, h4⟩ := c5_init_failure_behavior
  exact ⟨h1 srEnvMissing ⟨false, 0⟩ rfl rfl, h2 srEnvMismatch ⟨false, 0⟩ rfl rfl rfl,
    h3 ⟨false, 0⟩ wMapping wDetail [] rfl, h4 wMapping wDetail ⟨2, 7⟩ [] (by decide)⟩

/-- C9 (confirmed): every result the route-level `semantic_search` produces
carries `similarity_score = exp(-distance)` of its own raw ANN distance;
the score function is strictly decreasing in the distance; and for every
non-negative distance the score lies in the interval (0, 1]. -/
theorem c9_similarity_exp_neg_distance (mapping : List SlokaMapEntry)
    (detail : Int → Int → Int → Option Stanza) (hits : List AnnHit) :
    (∀ r ∈ semantic_search mapping detail hits,
      r.similarity_score = Real.exp (-r.distance)) ∧
    StrictAnti similarity ∧
    (∀ d : ℝ, 0 ≤ d → similarity d ∈ Set.Ioc (0 : ℝ) 1) := by
  refine ⟨?_, ?_, ?_⟩
  · intro r hr
    rw [semantic_search] at hr
    rcases List.mem_filterMap.mp hr with ⟨hit, _, hf⟩
    cases hg : mapping.get? hit.position with
    | none =>
      rw [hg] at hf
      simp at hf
    | some info =>
      rw [hg] at hf
      simp only [Option.some_inj] at hf
      rw [← hf]
      rfl
  · intro a b hab
    exact Real.exp_lt_exp.mpr (neg_lt_neg hab)
  · intro d hd
    refine ⟨Real.exp_pos _, ?_⟩
    calc Real.exp (-d) ≤ Real.exp 0 := Real.exp_le_exp.mpr (neg_nonpos.mpr hd)
    _ = 1 := Real.exp_zero

/-- Witness for C9: the single-hit search at distance 1, whose result's
score equals `exp(-1)`; strict decrease between distances 0 and 1; and the
interval bound at distance 1. -/
theorem c9_similarity_witness :
    wResult.similarity_score = Real.exp (-wResult.distance) ∧
    similarity 1 < similarity 0 ∧
    similarity 1 ∈ Set.Ioc (0 : ℝ) 1 := by
  obtain ⟨h1, h2, h3⟩ := c9_similarity_exp_neg_distance wMapping wDetail [wHit]
  refine ⟨h1 wResult ?_, h2 (by norm_num), h3 1 (by norm_num)⟩
  exact List.Mem.head _

/-- Segment of C10: scanning past an element whose tag is not
`other_question` is invisible to the out-of-domain check. -/
theorem scanOther_ignores {t : String} (hne : t ≠ "other_question")
    {e : IntentObj} (he : e.intent = some t) (pre post : List IntentObj) :
    scanOther (pre ++ e :: post) = scanOther (pre ++ post) := by
  induction pre with
  | nil => simp [scanOther, he, hne]
  | cons j pre ih =>
    cases hj : j.intent with
    | none => simp [scanOther, hj]
    | some u =>
      by_cases hu : u = "other_question"
      · simp [scanOther, hj, hu]
      · simp [scanOther, hj, hu, ih]

/-- Segment of C10: an element whose tag is not `fetch_by_location` adds no
coordinate evidence and no error. -/
theorem fetchLoop_ignores {index : VedaIndex} {dataset : Int → Option MandalaData}
    {t : String} (hne : t ≠ "fetch_by_location")
    {e : IntentObj} (he : e.intent = some t) (pre post : List IntentObj) :
    fetchLoop index dataset (pre ++ e :: post) = fetchLoop index dataset (pre ++ post) := by
  induction pre with
  | nil => simp [fetchLoop, he, hne]
  | cons j pre ih =>
    cases hj : j.intent with
    | none => simp [fetchLoop, hj]
    | some u =>
      by_cases hu : u = "fetch_by_location"
      · simp [fetchLoop, hj, hu, ih]
      · simp [fetchLoop, hj, hu, ih]

/-- Segment of C10: an element whose tag is not `semantic_search` adds no
semantic evidence and no error. -/
theorem semIntentLoop_ignores {env : Env} {t : String} (hne : t ≠ "semantic_search")
    {e : IntentObj} (he : e.intent = some t) (pre post : List IntentObj) :
    semIntentLoop env (pre ++ e :: post) = semIntentLoop env (pre ++ post) := by
  induction pre with
  | nil => simp [semIntentLoop, he, hne]
  | cons j pre ih =>
    cases hj : j.intent with
    | none => simp [semIntentLoop, hj]
    | some u =>
      by_cases hu : u = "semantic_search"
      · simp [semIntentLoop, hj, hu, ih]
      · simp [semIntentLoop, hj, hu, ih]

/-- Segment of C10: an element whose tag is not `asking_question`
contributes no question text and no error. -/
theorem questionsOf_ignores {t : String} (hne : t ≠ "asking_question")
    {e : IntentObj} (he : e.intent = some t) (pre post : List IntentObj) :
    questionsOf (pre ++ e :: post) = questionsOf (pre ++ post) := by
  induction pre with
  | nil =>
    simp only [List.nil_append, questionsOf, he]
    cases questionsOf post with
    | error e2 => rfl
    | ok qs => simp [hne]
  | cons j pre ih =>
    cases hj : j.intent with
    | none => simp [questionsOf, hj]
    | some u => simp [questionsOf, hj, ih]

/-- Helper for C10: a missing `intent` key is hit by the out-of-domain
scan, which reads every element's key until it finds `other_question`. -/
theorem scanOther_keyError {pre post : List IntentObj} {i : IntentObj}
    (hpre : ∀ j ∈ pre, j.intent.isSome ∧ j.intent ≠ some "other_question")
    (hi : i.intent = none) :
    scanOther (pre ++ i :: post) = .error (.keyError "intent") := by
  induction pre with
  | nil => simp [scanOther, hi]
  | cons j pre ih =>
    obtain ⟨hk, hn⟩ := hpre j (List.mem_cons_self j pre)
    obtain ⟨t, ht⟩ := Option.isSome_iff_exists.mp hk
    have htn : t ≠ "other_question" := fun hEq => hn (by rw [ht, hEq])
    simp only [List.cons_append, scanOther, ht]
    rw [if_neg htn]
    exact ih (fun k hk2 => hpre k (List.mem_cons_of_mem j hk2))

/-- C10 (counterexample to the claim as stated): the key read is not
unconditional for every list — when an `other_question` intent precedes the
keyless element, the out-of-domain scan returns the rejection envelope at
that earlier element and never reads the missing key, so the call returns
an envelope rather than failing with an exception. -/
theorem c10_keyless_after_other_returns_envelope :
    iNoKey.intent = none ∧
    get_answer envOtherNoKey "q" =
      .ok (.unrelated,
        [⟨"q", "Intent: " ++ intentsRepr [iOther, iNoKey], [iOther, iNoKey], false⟩]) :=
  ⟨rfl, rfl⟩

/-- C10 (amended): `get_answer` reads each element's `intent` key as the
scan reaches it — an element lacking the key, when the elements before it
are tagged and none is `other_question` (so the scan does reach it), makes
the whole call raise `KeyError` instead of returning an envelope (an
earlier `other_question` instead short-circuits into the rejection
envelope before the key is read); and an element whose tag is none of the
four dispatched tags is invisible to every stage that consumes intents:
the out-of-domain scan, the coordinate-fetch loop (evidence), the
semantic-search loop (evidence), and the question extraction all behave as
if the element were absent, with no error. -/
theorem c10_intent_dispatch :
    (∀ (env : Env) (q : String) (pre post : List IntentObj) (i : IntentObj),
      env.classify q = .ok (pre ++ i :: post) →
      (∀ j ∈ pre, j.intent.isSome ∧ j.intent ≠ some "other_question") →
      i.intent = none →
      get_answer env q = .error (.keyError "intent")) ∧
    (∀ t : String, t ∉ knownTags → ∀ e : IntentObj, e.intent = some t →
      ∀ (index : VedaIndex) (dataset : Int → Option MandalaData) (env : Env)
        (pre post : List IntentObj),
        scanOther (pre ++ e :: post) = scanOther (pre ++ post) ∧
        fetchLoop index dataset (pre ++ e :: post) = fetchLoop index dataset (pre ++ post) ∧
        semIntentLoop env (pre ++ e :: post) = semIntentLoop env (pre ++ post) ∧
        questionsOf (pre ++ e :: post) = questionsOf (pre ++ post)) := by
  constructor
  · intro env q pre post i hc hpre hi
    simp only [get_answer, hc, scanOther_keyError hpre hi]
  · intro t ht e he index dataset env pre post
    simp only [knownTags, List.mem_cons, List.not_mem_nil, or_false, not_or] at ht
    obtain ⟨h1, h2, h3, h4⟩ := ht
    exact ⟨scanOther_ignores h1 he pre post, fetchLoop_ignores h2 he pre post,
      semIntentLoop_ignores h3 he pre post, questionsOf_ignores h4 he pre post⟩

/-- Witness for C10: a list whose second element lacks the key raises
`KeyError`; and the unknown tag "mystery" inserted between a coordinate
intent and an asking intent leaves all four stages unchanged. -/
theorem c10_intent_dispatch_witness :
    get_answer envNoKey "q" = .error (.keyError "intent") ∧
    scanOther ([iFetch111] ++ iUnknown :: [iAsk]) = scanOther ([iFetch111] ++ [iAsk]) ∧
    fetchLoop index1 dataset1 ([iFetch111] ++ iUnknown :: [iAsk]) =
      fetchLoop index1 dataset1 ([iFetch111] ++ [iAsk]) ∧
    semIntentLoop envMix ([iFetch111] ++ iUnknown :: [iAsk]) =
      semIntentLoop envMix ([iFetch111] ++ [iAsk]) ∧
    questionsOf ([iFetch111] ++ iUnknown :: [iAsk]) = questionsOf ([iFetch111] ++ [iAsk]) := by
  obtain ⟨ha, hb⟩ := c10_intent_dispatch
  refine ⟨ha envNoKey "q" [iFetch111] [] iNoKey rfl (by decide) rfl, ?_⟩
  exact hb "mystery" (by decide) iUnknown rfl index1 dataset1 envMix [iFetch111] [iAsk]

end RigVeda
